import Mathlib

/-!
Shallow embedding of the Legal RAG agent core (pdf_extractor.py,
chunking_tool.py, vector_store.py, agent.py) and proofs of the
specification claims about it.

External collaborators (PyPDF2 page reading, the LangChain recursive
splitter, the ChromaDB nearest-neighbor index, the Gemini LLM) are out of
scope per the spec and appear as explicit parameters or as definitions
marked "Modelled from the spec".
-/

namespace LegalRag

/-- Python `str.split()` (no argument) on a character list: the maximal
runs of non-whitespace characters; leading, trailing and repeated
whitespace separators are dropped. -/
def pySplit : List Char → List (List Char)
  | [] => []
  | c :: cs =>
    if c.isWhitespace then pySplit cs
    else (c :: cs.takeWhile (fun x => !x.isWhitespace)) ::
      pySplit (cs.dropWhile (fun x => !x.isWhitespace))
termination_by l => l.length
decreasing_by
  · simp
  · simp
    exact Nat.lt_succ_of_le (List.Sublist.length_le (List.dropWhile_sublist _))

/-- Python truthiness test `not s or len(s.strip()) == 0`: all characters
are whitespace (vacuously true for the empty string). -/
def pyIsBlank (s : String) : Bool := s.data.all (·.isWhitespace)

/-- Python `" ".join(text.split())` at the character-list level. -/
def cleanData (l : List Char) : List Char := List.intercalate [' '] (pySplit l)

/-- The per-page normalization `" ".join(text.split())` used by the
extractor: collapse whitespace runs to single spaces and trim. -/
def clean (s : String) : String := ⟨cleanData s.data⟩

/-- Python `len(s.split())`: number of whitespace-delimited tokens. -/
def pyWordCount (s : String) : Nat := (pySplit s.data).length

/-- Python `sep.join(xs)` for a list of strings. -/
def joinWith (sep : List Char) (xs : List String) : String :=
  ⟨List.intercalate sep (xs.map String.data)⟩

/-- Embedding of `get_optimal_chunk_size` from chunking_tool.py: chunk size chosen
purely from the total character length of the input text. -/
def get_optimal_chunk_size (text : String) : Nat :=
  let text_length := text.length
  if text_length < 5000 then 500
  else if text_length < 20000 then 1000
  else if text_length < 100000 then 1500
  else 2000

/-- A chunk object as built by `chunk_text` / `chunk_by_pages`
(chunking_tool.py): the dict keys become fields; `page_number` and
`global_chunk_id` are only set by the page-aware path. -/
structure Chunk where
  id : String
  text : String
  chunk_index : Nat
  total_chunks : Nat
  source : String
  char_count : Nat
  word_count : Nat
  page_number : Option Nat := none
  global_chunk_id : Option String := none
deriving DecidableEq

/-- Aggregate statistics returned by `chunk_text`. -/
structure ChunkStats where
  total_chunks : Nat
  avg_chunk_size : Nat
  total_characters : Nat
  total_words : Nat
deriving DecidableEq

/-- Result dict of `chunk_text`. -/
structure ChunkResult where
  success : Bool
  error : String := ""
  chunks : List Chunk := []
  statistics : ChunkStats := ⟨0, 0, 0, 0⟩
deriving DecidableEq

/-- The `for i, chunk in enumerate(chunks)` loop body of `chunk_text`:
builds the chunk objects starting at 0-based index `i`. -/
def buildChunkObjs (source_name : String) (total : Nat) : Nat → List String → List Chunk
  | _, [] => []
  | i, c :: cs =>
    { id := source_name ++ "_chunk_" ++ Nat.repr (i + 1)
      text := c
      chunk_index := i + 1
      total_chunks := total
      source := source_name
      char_count := c.length
      word_count := pyWordCount c } :: buildChunkObjs source_name total (i + 1) cs

/-- Embedding of `chunk_text` from chunking_tool.py.  The LangChain
`RecursiveCharacterTextSplitter.split_text` is an external collaborator
and is passed in as `split` (taking chunk size, overlap and the text). -/
def chunk_text (split : Nat → Nat → String → List String)
    (text : String) (chunk_size : Nat := 1000) (chunk_overlap : Nat := 200)
    (source_name : String := "document") : ChunkResult :=
  if pyIsBlank text then
    { success := false, error := "Text is empty or None" }
  else
    let chunks := split chunk_size chunk_overlap text
    let chunk_objects := buildChunkObjs source_name chunks.length 0 chunks
    let stats : ChunkStats :=
      { total_chunks := chunks.length
        avg_chunk_size :=
          if chunks.isEmpty then 0
          else (chunks.map String.length).sum / chunks.length
        total_characters := text.length
        total_words := pyWordCount text }
    { success := true, chunks := chunk_objects, statistics := stats }

/-- The metadata record `add_chunks` stores alongside each text (the
`metadata` dict built at vector_store.py lines 58-64, with the Python
`dict.get` defaults applied). -/
structure ChunkMeta where
  chunk_index : Nat
  source : String
  char_count : Nat
  word_count : Nat
  page_number : Nat
deriving DecidableEq

/-- One (text, metadata, id) record held by the nearest-neighbor store. -/
structure Entry where
  id : String
  text : String
  meta : ChunkMeta
deriving DecidableEq

/-- The id chosen for a chunk at 0-based position `i` of the batch:
`chunk.get("id") or chunk.get("global_chunk_id") or f"chunk_{len(ids)}"`
(Python `or` falls through on empty strings / missing keys). -/
def chunkStoreId (i : Nat) (c : Chunk) : String :=
  if c.id ≠ "" then c.id
  else match c.global_chunk_id with
    | some g => if g ≠ "" then g else "chunk_" ++ Nat.repr i
    | none => "chunk_" ++ Nat.repr i

/-- The store entry built from a chunk at 0-based batch position `i`. -/
def entryOfChunk (i : Nat) (c : Chunk) : Entry :=
  { id := chunkStoreId i c
    text := c.text
    meta :=
      { chunk_index := c.chunk_index
        source := c.source
        char_count := c.char_count
        word_count := c.word_count
        page_number := c.page_number.getD 0 } }

/-- The map `entryOfChunk` applied along a batch with its positions. -/
def entriesOfChunks : Nat → List Chunk → List Entry
  | _, [] => []
  | i, c :: cs => entryOfChunk i c :: entriesOfChunks (i + 1) cs

/-- Modelled from the spec: the external vector index holds (text,
metadata, id) records; the repository never inspects its layout beyond
`count`, `add`, `query` and `delete_collection`. -/
structure Collection where
  entries : List Entry
deriving DecidableEq

/-- The stored-record count `collection.count()`. -/
def Collection.count (c : Collection) : Nat := c.entries.length

/-- Modelled from the spec: ingestion of one record into the external
index is an upsert keyed by id — an existing entry with the same id has
its text and metadata overwritten in place, otherwise the record is
appended; it never duplicates an id. -/
def upsertL (e : Entry) : List Entry → List Entry
  | [] => [e]
  | x :: xs => if x.id = e.id then e :: xs else x :: upsertL e xs

/-- Upsert one entry into the collection. -/
def Collection.upsert (c : Collection) (e : Entry) : Collection :=
  ⟨upsertL e c.entries⟩

/-- Batch ingestion `collection.add(documents, metadatas, ids)`: ingest a whole batch in
order. -/
def Collection.addAll (c : Collection) (es : List Entry) : Collection :=
  es.foldl Collection.upsert c

/-- First stored record with the given id, if any. -/
def Collection.find (c : Collection) (id : String) : Option Entry :=
  c.entries.find? (fun e => e.id = id)

/-- Result dict of `VectorStore.add_chunks`. -/
structure AddResult where
  success : Bool
  error : String := ""
  chunks_added : Nat := 0
  total_documents : Nat := 0
deriving DecidableEq

/-- Embedding of `VectorStore.add_chunks` from vector_store.py: rejects an empty
batch, otherwise builds per-chunk (text, metadata, id) records and adds
them to the collection; returns the batch size and the new stored
count together with the updated collection. -/
def add_chunks (store : Collection) (chunks : List Chunk) : AddResult × Collection :=
  if chunks = [] then
    ({ success := false, error := "No chunks provided" }, store)
  else
    let store' := store.addAll (entriesOfChunks 0 chunks)
    ({ success := true
       chunks_added := chunks.length
       total_documents := store'.count }, store')

/-- One formatted search result (`vector_store.py` lines 126-131):
text, metadata, id and the similarity distance (abstract; lower =
more relevant). -/
structure Hit where
  text : String
  meta : ChunkMeta
  id : String
  distance : Nat
deriving DecidableEq

/-- Result dict of `VectorStore.search`. -/
structure SearchResult where
  success : Bool
  error : String := ""
  query : String := ""
  results : List Hit := []
  count : Nat := 0
deriving DecidableEq

/-- Embedding of `VectorStore.search` from vector_store.py.  The ChromaDB
`collection.query` call (embedding plus nearest-neighbor lookup) is the
external collaborator `rawQuery`, taking the query text and the
requested `n_results`. -/
def search (rawQuery : String → Nat → List Hit) (store : Collection)
    (query : String) (top_k : Nat := 3) : SearchResult :=
  if pyIsBlank query then
    { success := false, error := "Query is empty" }
  else if store.count = 0 then
    { success := false
      error := "No documents in vector store. Please add documents first." }
  else
    let search_results := rawQuery query (min top_k store.count)
    { success := true
      query := query
      results := search_results
      count := search_results.length }

/-- Ranking relation on hits: ascending similarity distance. -/
def hitLE (a b : Hit) : Prop := a.distance ≤ b.distance

instance : DecidableRel hitLE := fun a b => inferInstanceAs (Decidable (a.distance ≤ b.distance))

instance : IsTotal Hit hitLE := ⟨fun a b => Nat.le_total a.distance b.distance⟩

instance : IsTrans Hit hitLE := ⟨fun _ _ _ => Nat.le_trans⟩

/-- Modelled from the spec: the external index's `collection.query`
returns the stored records ranked by increasing distance (most relevant
first, ties in the store's native order), truncated to the requested
`n_results`.  The black-box embedding model appears as the distance
function `dist` from query text and entry to a distance. -/
def chromaQuery (dist : String → Entry → Nat) (store : Collection) :
    String → Nat → List Hit :=
  fun q n =>
    (List.insertionSort hitLE
      (store.entries.map (fun e => ⟨e.text, e.meta, e.id, dist q e⟩))).take n

/-- Python `os.path.basename`: the final path component (text after the last
slash). -/
def basename (p : String) : String :=
  ⟨p.data.foldl (fun acc c => if c = '/' then [] else acc ++ [c]) []⟩

/-- Python `pdf_path.lower().endswith(".pdf")`: the last four characters,
lowercased, are `.pdf`. -/
def lowerEndsWithPdf (p : String) : Bool :=
  (p.data.map Char.toLower).reverse.take 4 = ['f', 'd', 'p', '.']

/-- The metadata dict returned by `extract_text_from_pdf`. -/
structure PdfMeta where
  filename : String
  num_pages : Nat
  total_characters : Nat
  total_words : Nat
deriving DecidableEq

/-- Result dict of `extract_text_from_pdf`. -/
structure ExtractResult where
  success : Bool
  error : String := ""
  text : String := ""
  page_texts : List (Nat × String) := []
  metadata : PdfMeta := ⟨"", 0, 0, 0⟩
deriving DecidableEq

/-- The page loop of `extract_text_from_pdf`: pairs each page's cleaned
text with its 1-based page number, starting at 0-based index `i`. -/
def buildPageTexts : Nat → List String → List (Nat × String)
  | _, [] => []
  | i, t :: ts => (i + 1, clean t) :: buildPageTexts (i + 1) ts

/-- Embedding of `extract_text_from_pdf` from pdf_extractor.py.  PyPDF2's page reading
is the external collaborator: `path_exists` stands for
`os.path.exists(pdf_path)` and `pages` for the raw
`page.extract_text()` outputs in page order 1..N. -/
def extract_text_from_pdf (path_exists : Bool) (pdf_path : String)
    (pages : List String) : ExtractResult :=
  if path_exists = false then
    { success := false, error := "File not found: " ++ pdf_path }
  else if lowerEndsWithPdf pdf_path = false then
    { success := false, error := "File must be a PDF (.pdf extension)" }
  else
    let all_text := pages.map clean
    let page_texts := buildPageTexts 0 pages
    let combined_text := joinWith [' '] all_text
    { success := true
      text := combined_text
      page_texts := page_texts
      metadata :=
        { filename := basename pdf_path
          num_pages := pages.length
          total_characters := combined_text.length
          total_words := pyWordCount combined_text } }

/-- The `current_document` summary saved by `process_document`. -/
structure DocSummary where
  filename : String
  num_pages : Nat
  total_words : Nat
  num_chunks : Nat
  chunk_size : Nat
deriving DecidableEq

/-- The orchestrator's mutable state: its vector-store handle and the
at-most-one current-document summary. -/
structure AgentState where
  store : Collection
  current_document : Option DocSummary
deriving DecidableEq

/-- Result dict of `LegalRAGAgent.process_document`. -/
structure ProcResult where
  success : Bool
  error : String := ""
  message : String := ""
  document_info : Option DocSummary := none
deriving DecidableEq

/-- Embedding of `LegalRAGAgent.process_document` from agent.py: extract, then chunk
(overlap fixed at 200, chunk size from `get_optimal_chunk_size`), then
store; each stage's failure is returned immediately with a stage label,
and only full success replaces `current_document`. -/
def process_document (split : Nat → Nat → String → List String)
    (path_exists : Bool) (pdf_path : String) (pages : List String)
    (st : AgentState) : ProcResult × AgentState :=
  let extract_result := extract_text_from_pdf path_exists pdf_path pages
  if extract_result.success = false then
    ({ success := false
       error := "PDF extraction failed: " ++ extract_result.error }, st)
  else
    let text := extract_result.text
    let metadata := extract_result.metadata
    let optimal_size := get_optimal_chunk_size text
    let chunk_result := chunk_text split text optimal_size 200 metadata.filename
    if chunk_result.success = false then
      ({ success := false
         error := "Chunking failed: " ++ chunk_result.error }, st)
    else
      let chunks := chunk_result.chunks
      let store_pair := add_chunks st.store chunks
      if store_pair.1.success = false then
        ({ success := false
           error := "Vector storage failed: " ++ store_pair.1.error },
         { st with store := store_pair.2 })
      else
        let info : DocSummary :=
          { filename := metadata.filename
            num_pages := metadata.num_pages
            total_words := metadata.total_words
            num_chunks := chunks.length
            chunk_size := optimal_size }
        ({ success := true
           message := "Document processed successfully!"
           document_info := some info },
         { store := store_pair.2, current_document := some info })

/-- One entry of the `sources` list returned by `ask_question`. -/
structure SourceRef where
  text : String
  source : String
  page : Nat
deriving DecidableEq

/-- Result dict of `LegalRAGAgent.ask_question`. -/
structure AskResult where
  success : Bool
  error : String := ""
  question : String := ""
  answer : String := ""
  sources : List SourceRef := []
  num_sources : Nat := 0
deriving DecidableEq

/-- The per-chunk context annotation of `ask_question` (agent.py lines
134-138): `[Source: S, Page: P]` on its own line followed by the chunk
text. -/
def annotateHit (c : Hit) : String :=
  "[Source: " ++ c.meta.source ++ ", Page: " ++ Nat.repr c.meta.page_number ++
    "]\n" ++ c.text

/-- The context string of `ask_question`: the annotated chunks joined by
blank lines, in the store's returned rank order. -/
def context_of (results : List Hit) : String :=
  joinWith ['\n', '\n'] (results.map annotateHit)

/-- The grounded-answer prompt of `ask_question` (agent.py lines
142-155). -/
def prompt_of (context question : String) : String :=
  "You are a legal document analysis assistant. Answer the question based ONLY on the provided context from the document.\n\nContext from document:\n"
    ++ context ++ "\n\nQuestion: " ++ question ++
    "\n\nInstructions:\n1. Answer based ONLY on the context provided above\n2. If the answer is not in the context, say \"I cannot find this information in the document\"\n3. Be precise and cite the source/page when possible\n4. Keep the answer clear and concise\n\nAnswer:"

/-- One formatted source citation (agent.py lines 166-173): the chunk
text truncated to its first 200 characters plus an ellipsis marker,
with source name and page number. -/
def sourceOfHit (c : Hit) : SourceRef :=
  { text := String.mk (c.text.data.take 200) ++ "..."
    source := c.meta.source
    page := c.meta.page_number }

/-- Embedding of `LegalRAGAgent.ask_question` from agent.py.  The Gemini generation
call is the external collaborator `llm` (prompt to answer text); the
ChromaDB query inside `search` is `rawQuery` as above. -/
def ask_question (llm : String → String) (rawQuery : String → Nat → List Hit)
    (store : Collection) (question : String) (top_k : Nat := 3) : AskResult :=
  let search_result := search rawQuery store question top_k
  if search_result.success = false then
    { success := false, error := search_result.error }
  else if search_result.count = 0 then
    { success := false, error := "No relevant information found in the document." }
  else
    let relevant_chunks := search_result.results
    let context := context_of relevant_chunks
    let prompt := prompt_of context question
    let answer := llm prompt
    let sources := relevant_chunks.map sourceOfHit
    { success := true
      question := question
      answer := answer
      sources := sources
      num_sources := sources.length }

/-- The fixed topic list of `extract_key_clauses`. -/
def key_topics : List String :=
  ["payment terms", "termination clause", "confidentiality", "liability",
   "duration of contract", "dispute resolution"]

/-- Result dict of `LegalRAGAgent.extract_key_clauses`. -/
structure ClausesResult where
  success : Bool
  error : String := ""
  clauses : List (String × String) := []
deriving DecidableEq

/-- Embedding of `LegalRAGAgent.extract_key_clauses` from agent.py: one `ask_question`
per fixed topic with `top_k = 2`; only successful answers are collected,
and the overall result is always a success. -/
def extract_key_clauses (llm : String → String)
    (rawQuery : String → Nat → List Hit) (store : Collection) : ClausesResult :=
  let results := key_topics.foldl (fun acc topic =>
    let result :=
      ask_question llm rawQuery store
        ("What does the document say about " ++ topic ++ "?") 2
    if result.success then acc ++ [(topic, result.answer)] else acc) []
  { success := true, clauses := results }

/-- Numeric value of a decimal digit character. -/
def charVal (c : Char) : Nat := c.toNat - 48

/-- Structurally recursive decimal digit list of a natural number
(most significant first); reference version of `Nat.toDigits 10`. -/
def myToDigits (n : Nat) : List Char :=
  if n / 10 = 0 then [Nat.digitChar (n % 10)]
  else myToDigits (n / 10) ++ [Nat.digitChar (n % 10)]
termination_by n
decreasing_by exact Nat.div_lt_self (by omega) (by omega)

/-- Value of a most-significant-first decimal digit list. -/
def valOfDigits (l : List Char) : Nat :=
  l.foldl (fun acc c => acc * 10 + charVal c) 0

/-! ## Helper lemmas -/

theorem charVal_digitChar {d : Nat} (h : d < 10) :
    charVal (Nat.digitChar d) = d := by
  interval_cases d <;> decide

theorem valOfDigits_append (l : List Char) (c : Char) :
    valOfDigits (l ++ [c]) = valOfDigits l * 10 + charVal c := by
  simp [valOfDigits, List.foldl_append]

theorem valOfDigits_myToDigits (n : Nat) : valOfDigits (myToDigits n) = n := by
  induction n using Nat.strong_induction_on with
  | _ n ih =>
    rw [myToDigits]
    by_cases h : n / 10 = 0
    · rw [if_pos h]
      have h10 : n % 10 < 10 := Nat.mod_lt _ (by omega)
      simp [valOfDigits, charVal_digitChar h10]
      omega
    · rw [if_neg h, valOfDigits_append,
        ih (n / 10) (Nat.div_lt_self (by omega) (by omega)),
        charVal_digitChar (Nat.mod_lt _ (by omega))]
      omega

theorem myToDigits_inj {m n : Nat} (h : myToDigits m = myToDigits n) : m = n := by
  have hm := valOfDigits_myToDigits m
  have hn := valOfDigits_myToDigits n
  rw [h] at hm
  omega

theorem toDigitsCore_eq_myToDigits (fuel : Nat) :
    ∀ (n : Nat) (ds : List Char), n < fuel →
      Nat.toDigitsCore 10 fuel n ds = myToDigits n ++ ds := by
  induction fuel with
  | zero => intro n ds h; omega
  | succ f ihf =>
    intro n ds h
    rw [Nat.toDigitsCore, myToDigits]
    by_cases h0 : n / 10 = 0
    · simp [h0]
    · rw [if_neg h0, if_neg h0]
      rw [ihf (n / 10) _ (by
        have : n / 10 < n := Nat.div_lt_self (by omega) (by omega)
        omega)]
      simp

/-- The decimal printer `Nat.repr` is injective at the character-data level. -/
theorem repr_data_inj {m n : Nat}
    (h : (Nat.repr m).data = (Nat.repr n).data) : m = n := by
  have hm : (Nat.repr m).data = myToDigits m := by
    show (Nat.toDigits 10 m).asString.data = _
    rw [Nat.toDigits, toDigitsCore_eq_myToDigits (m + 1) m [] (Nat.lt_succ_self m)]
    simp [List.asString]
  have hn : (Nat.repr n).data = myToDigits n := by
    show (Nat.toDigits 10 n).asString.data = _
    rw [Nat.toDigits, toDigitsCore_eq_myToDigits (n + 1) n [] (Nat.lt_succ_self n)]
    simp [List.asString]
  exact myToDigits_inj (hm ▸ hn ▸ h)

theorem intercalate_nil (sep : List Char) :
    List.intercalate sep ([] : List (List Char)) = [] := rfl

theorem intercalate_single (sep a : List Char) :
    List.intercalate sep [a] = a := by
  simp [List.intercalate]

theorem intercalate_cons_cons (sep a b : List Char) (tl : List (List Char)) :
    List.intercalate sep (a :: b :: tl) = a ++ sep ++ List.intercalate sep (b :: tl) := by
  simp [List.intercalate, List.intersperse_cons_cons]

theorem pySplit_cons_ws {c : Char} (cs : List Char) (h : c.isWhitespace = true) :
    pySplit (c :: cs) = pySplit cs := by
  conv_lhs => unfold pySplit
  simp [h]

theorem pySplit_cons_nonws {c : Char} (cs : List Char) (h : c.isWhitespace = false) :
    pySplit (c :: cs) =
      (c :: cs.takeWhile (fun x => !x.isWhitespace)) ::
        pySplit (cs.dropWhile (fun x => !x.isWhitespace)) := by
  conv_lhs => unfold pySplit
  simp [h]

/-- Every token produced by `pySplit` is nonempty and whitespace-free. -/
theorem pySplit_token_spec (l : List Char) :
    ∀ t ∈ pySplit l, t ≠ [] ∧ ∀ c ∈ t, c.isWhitespace = false := by
  induction l using pySplit.induct with
  | case1 =>
    intro t ht
    simp [pySplit] at ht
  | case2 c cs h ih =>
    rw [pySplit_cons_ws cs (by simpa using h)]
    exact ih
  | case3 c cs h ih =>
    have hc : c.isWhitespace = false := by simpa using h
    rw [pySplit_cons_nonws cs hc]
    intro t ht
    rcases List.mem_cons.mp ht with rfl | ht'
    · refine ⟨by simp, ?_⟩
      intro x hx
      rcases List.mem_cons.mp hx with rfl | hx'
      · exact hc
      · have := List.mem_takeWhile_imp hx'
        simpa using this
    · exact ih t ht'

/-- Splitting a single nonempty whitespace-free token. -/
theorem pySplit_single_token (t : List Char) (h0 : t ≠ [])
    (hw : ∀ c ∈ t, c.isWhitespace = false) : pySplit t = [t] := by
  cases t with
  | nil => exact absurd rfl h0
  | cons c cs =>
    have hc : c.isWhitespace = false := hw c (by simp)
    rw [pySplit_cons_nonws cs hc]
    have htw : cs.takeWhile (fun x => !x.isWhitespace) = cs := by
      rw [List.takeWhile_eq_self_iff]
      intro x hx
      simp [hw x (List.mem_cons_of_mem _ hx)]
    have hdw : cs.dropWhile (fun x => !x.isWhitespace) = [] := by
      rw [List.dropWhile_eq_nil_iff]
      intro x hx
      simp [hw x (List.mem_cons_of_mem _ hx)]
    rw [htw, hdw]
    simp [pySplit]

/-- Splitting a token followed by a space and a remainder. -/
theorem pySplit_token_append (t r : List Char) (h0 : t ≠ [])
    (hw : ∀ c ∈ t, c.isWhitespace = false) :
    pySplit (t ++ ' ' :: r) = t :: pySplit r := by
  cases t with
  | nil => exact absurd rfl h0
  | cons c cs =>
    have hc : c.isWhitespace = false := hw c (by simp)
    rw [List.cons_append, pySplit_cons_nonws _ hc]
    have hcs : ∀ a ∈ cs, (fun x => !x.isWhitespace) a = true := by
      intro a ha
      simp [hw a (List.mem_cons_of_mem _ ha)]
    rw [List.takeWhile_append_of_pos hcs, List.dropWhile_append_of_pos hcs]
    have hsp : (' ' : Char).isWhitespace = true := by decide
    have h1 : (' ' :: r).takeWhile (fun x => !x.isWhitespace) = [] := by
      simp [List.takeWhile_cons, hsp]
    have h2 : (' ' :: r).dropWhile (fun x => !x.isWhitespace) = ' ' :: r := by
      simp [List.dropWhile_cons, hsp]
    rw [h1, h2, pySplit_cons_ws r hsp]
    simp

/-- Splitting a space-joined list of nonempty whitespace-free tokens
recovers exactly those tokens. -/
theorem pySplit_intercalate (ts : List (List Char))
    (h : ∀ t ∈ ts, t ≠ [] ∧ ∀ c ∈ t, c.isWhitespace = false) :
    pySplit (List.intercalate [' '] ts) = ts := by
  induction ts with
  | nil => simp [intercalate_nil, pySplit]
  | cons a ts ih =>
    cases ts with
    | nil =>
      rw [intercalate_single]
      exact pySplit_single_token a (h a (by simp)).1 (h a (by simp)).2
    | cons b ts' =>
      rw [intercalate_cons_cons]
      have hassoc :
          a ++ [' '] ++ List.intercalate [' '] (b :: ts') =
            a ++ ' ' :: List.intercalate [' '] (b :: ts') := by
        simp
      rw [hassoc,
        pySplit_token_append a _ (h a (by simp)).1 (h a (by simp)).2,
        ih (by intro t ht; exact h t (List.mem_cons_of_mem _ ht))]

/-- Re-splitting cleaned text gives the same tokens: cleaning preserves
the whitespace-delimited token list. -/
theorem pySplit_cleanData (l : List Char) : pySplit (cleanData l) = pySplit l := by
  unfold cleanData
  exact pySplit_intercalate _ (fun t ht => pySplit_token_spec l t ht)

/-- Normalization `" ".join(text.split())` is idempotent: the per-page normalization is
a proper normal form (whitespace runs collapsed, ends trimmed). -/
theorem cleanData_idem (l : List Char) : cleanData (cleanData l) = cleanData l := by
  have h1 : cleanData (cleanData l) = List.intercalate [' '] (pySplit (cleanData l)) := rfl
  rw [h1, pySplit_cleanData]
  rfl

/-- String-level idempotence of the extractor's normalization. -/
theorem clean_idem (s : String) : clean (clean s) = clean s := by
  show String.mk (cleanData (cleanData s.data)) = String.mk (cleanData s.data)
  rw [cleanData_idem]

/-- Cleaning preserves the whitespace-delimited word count. -/
theorem pyWordCount_clean (s : String) : pyWordCount (clean s) = pyWordCount s := by
  show (pySplit (cleanData s.data)).length = (pySplit s.data).length
  rw [pySplit_cleanData]

theorem buildChunkObjs_length (sn : String) (total : Nat) (segs : List String) :
    ∀ i0, (buildChunkObjs sn total i0 segs).length = segs.length := by
  induction segs with
  | nil => intro i0; rfl
  | cons c cs ih => intro i0; simp [buildChunkObjs, ih]

theorem buildChunkObjs_getElem? (sn : String) (total : Nat) (segs : List String) :
    ∀ i0 k, (buildChunkObjs sn total i0 segs)[k]? =
      segs[k]?.map (fun c =>
        { id := sn ++ "_chunk_" ++ Nat.repr (i0 + k + 1)
          text := c
          chunk_index := i0 + k + 1
          total_chunks := total
          source := sn
          char_count := c.length
          word_count := pyWordCount c : Chunk }) := by
  induction segs with
  | nil => intro i0 k; simp [buildChunkObjs]
  | cons c cs ih =>
    intro i0 k
    cases k with
    | zero => simp [buildChunkObjs]
    | succ k =>
      have e : i0 + 1 + k = i0 + (k + 1) := by omega
      simp only [buildChunkObjs, List.getElem?_cons_succ, ih (i0 + 1) k, e]

theorem buildPageTexts_length (pages : List String) :
    ∀ i0, (buildPageTexts i0 pages).length = pages.length := by
  induction pages with
  | nil => intro i0; rfl
  | cons t ts ih => intro i0; simp [buildPageTexts, ih]

theorem buildPageTexts_getElem? (pages : List String) :
    ∀ i0 k, (buildPageTexts i0 pages)[k]? =
      pages[k]?.map (fun t => (i0 + k + 1, clean t)) := by
  induction pages with
  | nil => intro i0 k; simp [buildPageTexts]
  | cons t ts ih =>
    intro i0 k
    cases k with
    | zero => simp [buildPageTexts]
    | succ k =>
      have e : i0 + 1 + k = i0 + (k + 1) := by omega
      simp only [buildPageTexts, List.getElem?_cons_succ, ih (i0 + 1) k, e]

theorem upsertL_length_of_has (e : Entry) (l : List Entry)
    (h : ∃ x ∈ l, x.id = e.id) : (upsertL e l).length = l.length := by
  induction l with
  | nil => simp at h
  | cons x xs ih =>
    by_cases hx : x.id = e.id
    · simp [upsertL, hx]
    · have h' : ∃ y ∈ xs, y.id = e.id := by
        rcases h with ⟨y, hy, hye⟩
        rcases List.mem_cons.mp hy with rfl | hy'
        · exact absurd hye hx
        · exact ⟨y, hy', hye⟩
      simp [upsertL, hx, ih h']

theorem upsertL_has (e : Entry) (l : List Entry) :
    ∃ x ∈ upsertL e l, x.id = e.id := by
  induction l with
  | nil => exact ⟨e, by simp [upsertL], rfl⟩
  | cons x xs ih =>
    by_cases hx : x.id = e.id
    · exact ⟨e, by simp [upsertL, hx], rfl⟩
    · rcases ih with ⟨y, hy, hye⟩
      exact ⟨y, by simp [upsertL, hx, hy], hye⟩

theorem upsertL_preserves_has (e : Entry) (l : List Entry) (id : String)
    (h : ∃ x ∈ l, x.id = id) : ∃ x ∈ upsertL e l, x.id = id := by
  induction l with
  | nil => simp at h
  | cons x xs ih =>
    rcases h with ⟨y, hy, hye⟩
    by_cases hx : x.id = e.id
    · rcases List.mem_cons.mp hy with rfl | hy'
      · exact ⟨e, by simp [upsertL, hx], by rw [← hx]; exact hye⟩
      · exact ⟨y, by simp [upsertL, hx, hy'], hye⟩
    · rcases List.mem_cons.mp hy with rfl | hy'
      · exact ⟨y, by simp [upsertL, hx], hye⟩
      · rcases ih ⟨y, hy', hye⟩ with ⟨z, hz, hze⟩
        exact ⟨z, by simp [upsertL, hx, hz], hze⟩

theorem upsertL_find (e : Entry) (l : List Entry) :
    (upsertL e l).find? (fun x => x.id = e.id) = some e := by
  induction l with
  | nil => simp [upsertL]
  | cons x xs ih =>
    by_cases hx : x.id = e.id
    · simp [upsertL, hx]
    · simp [upsertL, hx, ih]

theorem addAll_preserves_has (es : List Entry) :
    ∀ (c : Collection) (id : String), (∃ x ∈ c.entries, x.id = id) →
      ∃ x ∈ (c.addAll es).entries, x.id = id := by
  induction es with
  | nil => intro c id h; exact h
  | cons f fs ih =>
    intro c id h
    exact ih (c.upsert f) id (upsertL_preserves_has f c.entries id h)

theorem addAll_has_of_mem (es : List Entry) :
    ∀ (c : Collection) (e : Entry), e ∈ es →
      ∃ x ∈ (c.addAll es).entries, x.id = e.id := by
  induction es with
  | nil => intro c e he; simp at he
  | cons f fs ih =>
    intro c e he
    rcases List.mem_cons.mp he with rfl | he'
    · exact addAll_preserves_has fs (c.upsert e) e.id (upsertL_has e c.entries)
    · exact ih (c.upsert f) e he'

theorem addAll_count_of_all_has (es : List Entry) :
    ∀ (c : Collection), (∀ e ∈ es, ∃ x ∈ c.entries, x.id = e.id) →
      (c.addAll es).count = c.count := by
  induction es with
  | nil => intro c _; rfl
  | cons f fs ih =>
    intro c h
    have h1 : (Collection.addAll (c.upsert f) fs).count = (c.upsert f).count :=
      ih (c.upsert f) (fun e he =>
        upsertL_preserves_has f c.entries e.id (h e (List.mem_cons_of_mem _ he)))
    have h2 : (c.upsert f).count = c.count :=
      upsertL_length_of_has f c.entries (h f (List.mem_cons_self _ _))
    calc (c.addAll (f :: fs)).count
        = (Collection.addAll (c.upsert f) fs).count := rfl
      _ = (c.upsert f).count := h1
      _ = c.count := h2

theorem foldl_collect (f : String → AskResult) (topics : List String) :
    ∀ acc : List (String × String),
      topics.foldl (fun acc topic =>
          if (f topic).success then acc ++ [(topic, (f topic).answer)] else acc) acc
        = acc ++ topics.filterMap (fun t =>
            if (f t).success then some (t, (f t).answer) else none) := by
  induction topics with
  | nil => intro acc; simp
  | cons t ts ih =>
    intro acc
    by_cases h : (f t).success
    · simp [h, ih, List.filterMap_cons]
    · simp [h, ih, List.filterMap_cons]

/-! ## Claim theorems -/

/-- C1: ingesting a passage whose id is already stored overwrites that
entry (upsert keyed by id) instead of adding a new one; consequently
ingesting the same chunk list twice leaves the stored count exactly as
it was after the first ingest — no duplicates. -/
theorem c1_ingest_upsert_no_duplicates (store : Collection) (chunks : List Chunk)
    (h : chunks ≠ []) :
    (add_chunks store chunks).1.success = true ∧
    (add_chunks (add_chunks store chunks).2 chunks).1.success = true ∧
    (add_chunks (add_chunks store chunks).2 chunks).2.count =
      (add_chunks store chunks).2.count ∧
    ∀ e : Entry, (∃ x ∈ store.entries, x.id = e.id) →
      (store.upsert e).count = store.count ∧ (store.upsert e).find e.id = some e := by
  refine ⟨by simp [add_chunks, h], by simp [add_chunks, h], ?_, ?_⟩
  · simp only [add_chunks, if_neg h]
    exact addAll_count_of_all_has (entriesOfChunks 0 chunks)
      (Collection.addAll store (entriesOfChunks 0 chunks))
      (fun e he => addAll_has_of_mem (entriesOfChunks 0 chunks) store e he)
  · intro e he
    exact ⟨upsertL_length_of_has e store.entries he, upsertL_find e store.entries⟩

/-- Witness for C1 at a concrete one-chunk batch over an empty store. -/
theorem c1_witness :
    (add_chunks (add_chunks ⟨[]⟩
        [⟨"doc_chunk_1", "hello", 1, 1, "doc", 5, 1, none, none⟩]).2
      [⟨"doc_chunk_1", "hello", 1, 1, "doc", 5, 1, none, none⟩]).2.count =
    (add_chunks ⟨[]⟩
      [⟨"doc_chunk_1", "hello", 1, 1, "doc", 5, 1, none, none⟩]).2.count :=
  (c1_ingest_upsert_no_duplicates ⟨[]⟩ _ (List.cons_ne_nil _ _)).2.2.1

/-- C3: `get_optimal_chunk_size` is a pure, monotonic step function of
the input text's character length with steps at 5000, 20000 and
100000 characters. -/
theorem c3_get_optimal_chunk_size_step (text : String) :
    (text.length < 5000 → get_optimal_chunk_size text = 500) ∧
    (5000 ≤ text.length → text.length < 20000 → get_optimal_chunk_size text = 1000) ∧
    (20000 ≤ text.length → text.length < 100000 → get_optimal_chunk_size text = 1500) ∧
    (100000 ≤ text.length → get_optimal_chunk_size text = 2000) ∧
    ∀ t2 : String, text.length ≤ t2.length →
      get_optimal_chunk_size text ≤ get_optimal_chunk_size t2 := by
  refine ⟨?_, ?_, ?_, ?_, ?_⟩
  · intro h; simp only [get_optimal_chunk_size]; split_ifs; all_goals omega
  · intro h1 h2; simp only [get_optimal_chunk_size]; split_ifs; all_goals omega
  · intro h1 h2; simp only [get_optimal_chunk_size]; split_ifs; all_goals omega
  · intro h; simp only [get_optimal_chunk_size]; split_ifs; all_goals omega
  · intro t2 h; simp only [get_optimal_chunk_size]; split_ifs; all_goals omega

/-- Witness for C3 at the 5000-character boundary. -/
theorem c3_witness :
    get_optimal_chunk_size (String.mk (List.replicate 5000 'a')) = 1000 := by
  have hl : (String.mk (List.replicate 5000 'a')).length = 5000 := by
    show (List.replicate 5000 'a').length = 5000
    rw [List.length_replicate]
  exact (c3_get_optimal_chunk_size_step (String.mk (List.replicate 5000 'a'))).2.1
    (by omega) (by omega)

/-- C4: on a non-empty store with a non-blank query, `search` requests
and returns exactly `min top_k count` results, ranked by ascending
distance, and passes the store's returned ranking through unchanged. -/
theorem c4_search_clamps_and_ranks (dist : String → Entry → Nat)
    (store : Collection) (q : String) (top_k : Nat)
    (hs : store.count ≠ 0) (hq : pyIsBlank q = false) :
    (search (chromaQuery dist store) store q top_k).success = true ∧
    (search (chromaQuery dist store) store q top_k).count = min top_k store.count ∧
    (search (chromaQuery dist store) store q top_k).results.length =
      min top_k store.count ∧
    List.Pairwise hitLE (search (chromaQuery dist store) store q top_k).results ∧
    ∀ rawQuery : String → Nat → List Hit,
      (search rawQuery store q top_k).results = rawQuery q (min top_k store.count) := by
  have hlen : ∀ n, (chromaQuery dist store q n).length = min n store.count := by
    intro n
    simp [chromaQuery, Collection.count]
  refine ⟨by simp [search, hq, hs], ?_, ?_, ?_, ?_⟩
  · simp [search, hq, hs, hlen]
  · simp [search, hq, hs, hlen]
  · simp only [search, if_neg (by simp [hq] : ¬ pyIsBlank q = true), if_neg hs]
    exact List.Pairwise.sublist (List.take_sublist _ _)
      (List.sorted_insertionSort hitLE _)
  · intro rawQuery
    simp [search, hq, hs]

/-- Witness for C4 on a concrete one-entry store. -/
theorem c4_witness :
    (search (chromaQuery (fun _ _ => 0)
      ⟨[⟨"doc_chunk_1", "t", ⟨1, "doc", 1, 1, 1⟩⟩]⟩)
      ⟨[⟨"doc_chunk_1", "t", ⟨1, "doc", 1, 1, 1⟩⟩]⟩ "question" 3).count = 1 := by
  have h := (c4_search_clamps_and_ranks (fun _ _ => 0)
    ⟨[⟨"doc_chunk_1", "t", ⟨1, "doc", 1, 1, 1⟩⟩]⟩
    "question" 3 (by decide) (by decide)).2.1
  simpa using h

/-- C5: a query against an empty store fails with the empty-store error
independently of the nearest-neighbor backend, while a successful search
that returns zero hits on a non-empty store makes `ask_question` return
the distinct no-relevant-information failure instead of crashing. -/
theorem c5_empty_store_vs_no_results (llm : String → String)
    (rawQuery : String → Nat → List Hit) (store : Collection)
    (q : String) (k : Nat) (hq : pyIsBlank q = false) :
    (store.count = 0 →
      (ask_question llm rawQuery store q k).success = false ∧
      (ask_question llm rawQuery store q k).error =
        "No documents in vector store. Please add documents first.") ∧
    (store.count ≠ 0 → rawQuery q (min k store.count) = [] →
      (ask_question llm rawQuery store q k).success = false ∧
      (ask_question llm rawQuery store q k).error =
        "No relevant information found in the document.") := by
  constructor
  · intro h0
    constructor <;> simp [ask_question, search, hq, h0]
  · intro h0 hr
    constructor <;> simp [ask_question, search, hq, h0, hr]

/-- Witness for C5: empty store on one hand, empty hit list over a
one-entry store on the other. -/
theorem c5_witness :
    ((ask_question (fun _ => "a") (fun _ _ => []) ⟨[]⟩ "q" 3).error =
      "No documents in vector store. Please add documents first.") ∧
    ((ask_question (fun _ => "a") (fun _ _ => [])
        ⟨[⟨"i", "t", ⟨1, "doc", 1, 1, 1⟩⟩]⟩ "q" 3).error =
      "No relevant information found in the document.") :=
  ⟨((c5_empty_store_vs_no_results (fun _ => "a") (fun _ _ => []) ⟨[]⟩ "q" 3
      (by decide)).1 rfl).2,
   ((c5_empty_store_vs_no_results (fun _ => "a") (fun _ _ => [])
      ⟨[⟨"i", "t", ⟨1, "doc", 1, 1, 1⟩⟩]⟩ "q" 3
      (by decide)).2 (by decide) rfl).2⟩

/-- C6: in a successful `chunk_text` call the k-th produced chunk
(0-based k) has id `"{source}_chunk_{k+1}"`, `chunk_index = k + 1`
(contiguous and 1-based) and `total_chunks` equal to the number of
chunks produced; hence all ids of one call are pairwise distinct. -/
theorem c6_chunk_identity (split : Nat → Nat → String → List String)
    (text : String) (cs co : Nat) (sn : String) (h : pyIsBlank text = false) :
    (chunk_text split text cs co sn).success = true ∧
    (∀ (k : Nat) (c : Chunk), (chunk_text split text cs co sn).chunks[k]? = some c →
      c.id = sn ++ "_chunk_" ++ Nat.repr (k + 1) ∧
      c.chunk_index = k + 1 ∧
      c.total_chunks = (chunk_text split text cs co sn).chunks.length) ∧
    (∀ (k1 k2 : Nat) (c1 c2 : Chunk),
      (chunk_text split text cs co sn).chunks[k1]? = some c1 →
      (chunk_text split text cs co sn).chunks[k2]? = some c2 →
      k1 ≠ k2 → c1.id ≠ c2.id) := by
  have hch : (chunk_text split text cs co sn).chunks =
      buildChunkObjs sn (split cs co text).length 0 (split cs co text) := by
    simp [chunk_text, h]
  have hpoint : ∀ (k : Nat) (c : Chunk), (chunk_text split text cs co sn).chunks[k]? = some c →
      c.id = sn ++ "_chunk_" ++ Nat.repr (k + 1) ∧
      c.chunk_index = k + 1 ∧
      c.total_chunks = (chunk_text split text cs co sn).chunks.length := by
    intro k c hk
    rw [hch, buildChunkObjs_getElem?] at hk
    rcases Option.map_eq_some'.mp hk with ⟨s, _, rfl⟩
    refine ⟨by simp, by simp, ?_⟩
    rw [hch, buildChunkObjs_length]
  refine ⟨by simp [chunk_text, h], hpoint, ?_⟩
  intro k1 k2 c1 c2 h1 h2 hne heq
  have e1 := (hpoint k1 c1 h1).1
  have e2 := (hpoint k2 c2 h2).1
  rw [e1, e2] at heq
  have hd := congrArg String.data heq
  simp only [String.data_append, List.append_assoc] at hd
  have hd1 := (List.append_right_inj _).mp hd
  have hd2 := (List.append_right_inj _).mp hd1
  have := repr_data_inj hd2
  exact hne (by omega)

/-- Witness for C6 on a concrete two-segment split. -/
theorem c6_witness :
    (chunk_text (fun _ _ _ => ["aa", "bb"]) "hello" 10 2 "doc").chunks[0]?.map
        Chunk.id = some ("doc" ++ "_chunk_" ++ Nat.repr 1) ∧
    (chunk_text (fun _ _ _ => ["aa", "bb"]) "hello" 10 2 "doc").chunks[0]?.map
        Chunk.id ≠
      (chunk_text (fun _ _ _ => ["aa", "bb"]) "hello" 10 2 "doc").chunks[1]?.map
        Chunk.id := by
  have h := c6_chunk_identity (fun _ _ _ => ["aa", "bb"]) "hello" 10 2 "doc"
    (by decide)
  constructor
  · exact congrArg Option.some (h.2.1 0 _ rfl).1
  · intro heq
    exact h.2.2 0 1 _ _ rfl rfl (by omega) (Option.some.inj heq)

/-- C2: on a successful `ask_question` call the context string is the
blank-line-separated concatenation of the retrieved passages in the
store's returned rank order, each annotated with `[Source: S, Page: P]`,
the answer is the generator applied to the grounded prompt over that
context, and the Nth sources entry carries the Nth retrieved passage's
truncated text, source name and page number. -/
theorem c2_rank_order_preserved (llm : String → String)
    (rawQuery : String → Nat → List Hit) (store : Collection)
    (q : String) (k : Nat)
    (hs : (search rawQuery store q k).success = true)
    (hn : (search rawQuery store q k).results ≠ []) :
    (ask_question llm rawQuery store q k).success = true ∧
    (ask_question llm rawQuery store q k).answer =
      llm (prompt_of (context_of (search rawQuery store q k).results) q) ∧
    context_of (search rawQuery store q k).results =
      joinWith ['\n', '\n'] ((search rawQuery store q k).results.map annotateHit) ∧
    (ask_question llm rawQuery store q k).num_sources =
      (search rawQuery store q k).results.length ∧
    ∀ (n : Nat) (c : Hit), (search rawQuery store q k).results[n]? = some c →
      (ask_question llm rawQuery store q k).sources[n]? =
        some ⟨String.mk (c.text.data.take 200) ++ "...",
          c.meta.source, c.meta.page_number⟩ := by
  by_cases hq : pyIsBlank q = true
  · exact absurd hs (by simp [search, hq])
  · by_cases h0 : store.count = 0
    · exact absurd hs (by simp [search, hq, h0])
    · have hres : (search rawQuery store q k).results =
          rawQuery q (min k store.count) := by
        simp [search, hq, h0]
      have hn' : rawQuery q (min k store.count) ≠ [] := by rwa [hres] at hn
      refine ⟨?_, ?_, rfl, ?_, ?_⟩
      · simp [ask_question, search, hq, h0, List.length_eq_zero, hn']
      · rw [hres]
        simp [ask_question, search, hq, h0, List.length_eq_zero, hn']
      · rw [hres]
        simp [ask_question, search, hq, h0, List.length_eq_zero, hn']
      · intro n c hnc
        rw [hres] at hnc
        have hsrc : (ask_question llm rawQuery store q k).sources =
            (rawQuery q (min k store.count)).map sourceOfHit := by
          simp [ask_question, search, hq, h0, List.length_eq_zero, hn']
        rw [hsrc, List.getElem?_map, hnc]
        simp [sourceOfHit]

/-- Witness for C2 on a concrete one-hit retrieval. -/
theorem c2_witness :
    (ask_question (fun _ => "ans")
      (fun _ _ => [⟨"t1", ⟨1, "doc", 2, 1, 1⟩, "id1", 0⟩])
      ⟨[⟨"id1", "t1", ⟨1, "doc", 2, 1, 1⟩⟩]⟩ "q" 3).num_sources = 1 := by
  have h := (c2_rank_order_preserved (fun _ => "ans")
    (fun _ _ => [⟨"t1", ⟨1, "doc", 2, 1, 1⟩, "id1", 0⟩])
    ⟨[⟨"id1", "t1", ⟨1, "doc", 2, 1, 1⟩⟩]⟩ "q" 3 (by decide) (by decide)).2.2.2.1
  rw [h]
  decide

/-- C7: `process_document` runs extraction, chunking and storage in that
order, short-circuits at the first failing stage with that stage's
label prepended to the failure message, and only on success of all
three stages stores and returns the new current-document summary. -/
theorem c7_process_document_stages (split : Nat → Nat → String → List String)
    (pe : Bool) (path : String) (pages : List String) (st : AgentState) :
    ((extract_text_from_pdf pe path pages).success = false →
      (process_document split pe path pages st).1.success = false ∧
      (process_document split pe path pages st).1.error =
        "PDF extraction failed: " ++ (extract_text_from_pdf pe path pages).error ∧
      (process_document split pe path pages st).2 = st) ∧
    ((extract_text_from_pdf pe path pages).success = true →
      (chunk_text split (extract_text_from_pdf pe path pages).text
        (get_optimal_chunk_size (extract_text_from_pdf pe path pages).text) 200
        (extract_text_from_pdf pe path pages).metadata.filename).success = false →
      (process_document split pe path pages st).1.success = false ∧
      (process_document split pe path pages st).1.error =
        "Chunking failed: " ++ (chunk_text split (extract_text_from_pdf pe path pages).text
          (get_optimal_chunk_size (extract_text_from_pdf pe path pages).text) 200
          (extract_text_from_pdf pe path pages).metadata.filename).error ∧
      (process_document split pe path pages st).2 = st) ∧
    ((extract_text_from_pdf pe path pages).success = true →
      (chunk_text split (extract_text_from_pdf pe path pages).text
        (get_optimal_chunk_size (extract_text_from_pdf pe path pages).text) 200
        (extract_text_from_pdf pe path pages).metadata.filename).success = true →
      (add_chunks st.store (chunk_text split (extract_text_from_pdf pe path pages).text
        (get_optimal_chunk_size (extract_text_from_pdf pe path pages).text) 200
        (extract_text_from_pdf pe path pages).metadata.filename).chunks).1.success = false →
      (process_document split pe path pages st).1.success = false ∧
      (process_document split pe path pages st).1.error =
        "Vector storage failed: " ++
          (add_chunks st.store (chunk_text split (extract_text_from_pdf pe path pages).text
            (get_optimal_chunk_size (extract_text_from_pdf pe path pages).text) 200
            (extract_text_from_pdf pe path pages).metadata.filename).chunks).1.error ∧
      (process_document split pe path pages st).2.current_document =
        st.current_document) ∧
    ((extract_text_from_pdf pe path pages).success = true →
      (chunk_text split (extract_text_from_pdf pe path pages).text
        (get_optimal_chunk_size (extract_text_from_pdf pe path pages).text) 200
        (extract_text_from_pdf pe path pages).metadata.filename).success = true →
      (add_chunks st.store (chunk_text split (extract_text_from_pdf pe path pages).text
        (get_optimal_chunk_size (extract_text_from_pdf pe path pages).text) 200
        (extract_text_from_pdf pe path pages).metadata.filename).chunks).1.success = true →
      (process_document split pe path pages st).1.success = true ∧
      (process_document split pe path pages st).1.document_info =
        some { filename := (extract_text_from_pdf pe path pages).metadata.filename
               num_pages := (extract_text_from_pdf pe path pages).metadata.num_pages
               total_words := (extract_text_from_pdf pe path pages).metadata.total_words
               num_chunks := (chunk_text split (extract_text_from_pdf pe path pages).text
                 (get_optimal_chunk_size (extract_text_from_pdf pe path pages).text) 200
                 (extract_text_from_pdf pe path pages).metadata.filename).chunks.length
               chunk_size :=
                 get_optimal_chunk_size (extract_text_from_pdf pe path pages).text } ∧
      (process_document split pe path pages st).2.current_document =
        (process_document split pe path pages st).1.document_info) := by
  refine ⟨?_, ?_, ?_, ?_⟩
  · intro he
    refine ⟨?_, ?_, ?_⟩ <;> simp [process_document, he]
  · intro he hc
    refine ⟨?_, ?_, ?_⟩ <;> simp [process_document, he, hc]
  · intro he hc ha
    refine ⟨?_, ?_, ?_⟩ <;> simp [process_document, he, hc, ha]
  · intro he hc ha
    refine ⟨?_, ?_, ?_⟩ <;> simp [process_document, he, hc, ha]

/-- Witness for C7 on a missing file (extraction-failure stage). -/
theorem c7_witness :
    (process_document (fun _ _ _ => ["x"]) false "a.pdf" ["page"]
      ⟨⟨[]⟩, none⟩).1.error = "PDF extraction failed: File not found: a.pdf" :=
  ((c7_process_document_stages (fun _ _ _ => ["x"]) false "a.pdf" ["page"]
    ⟨⟨[]⟩, none⟩).1 (by decide)).2.1

/-- C9: `process_document` is atomic for the orchestrator's
current-document summary — any failing run leaves it exactly as it was,
and it is assigned (to the new summary) only on the all-success path. -/
theorem c9_process_document_atomic (split : Nat → Nat → String → List String)
    (pe : Bool) (path : String) (pages : List String) (st : AgentState) :
    ((process_document split pe path pages st).1.success = false →
      (process_document split pe path pages st).2.current_document =
        st.current_document) ∧
    ((process_document split pe path pages st).1.success = true →
      (process_document split pe path pages st).2.current_document =
        (process_document split pe path pages st).1.document_info) := by
  constructor
  · intro hf
    by_cases he : (extract_text_from_pdf pe path pages).success = false
    · simp [process_document, he]
    · rw [Bool.not_eq_false] at he
      by_cases hc : (chunk_text split (extract_text_from_pdf pe path pages).text
          (get_optimal_chunk_size (extract_text_from_pdf pe path pages).text) 200
          (extract_text_from_pdf pe path pages).metadata.filename).success = false
      · simp [process_document, he, hc]
      · rw [Bool.not_eq_false] at hc
        by_cases ha : (add_chunks st.store
            (chunk_text split (extract_text_from_pdf pe path pages).text
              (get_optimal_chunk_size (extract_text_from_pdf pe path pages).text) 200
              (extract_text_from_pdf pe path pages).metadata.filename).chunks).1.success
            = false
        · simp [process_document, he, hc, ha]
        · rw [Bool.not_eq_false] at ha
          exact absurd hf (by simp [process_document, he, hc, ha])
  · intro hs
    by_cases he : (extract_text_from_pdf pe path pages).success = false
    · exact absurd hs (by simp [process_document, he])
    · rw [Bool.not_eq_false] at he
      by_cases hc : (chunk_text split (extract_text_from_pdf pe path pages).text
          (get_optimal_chunk_size (extract_text_from_pdf pe path pages).text) 200
          (extract_text_from_pdf pe path pages).metadata.filename).success = false
      · exact absurd hs (by simp [process_document, he, hc])
      · rw [Bool.not_eq_false] at hc
        by_cases ha : (add_chunks st.store
            (chunk_text split (extract_text_from_pdf pe path pages).text
              (get_optimal_chunk_size (extract_text_from_pdf pe path pages).text) 200
              (extract_text_from_pdf pe path pages).metadata.filename).chunks).1.success
            = false
        · exact absurd hs (by simp [process_document, he, hc, ha])
        · rw [Bool.not_eq_false] at ha
          simp [process_document, he, hc, ha]

/-- Witness for C9: a failing run (missing file) leaves the
current-document summary untouched. -/
theorem c9_witness :
    (process_document (fun _ _ _ => ["x"]) false "a.pdf" ["page"]
      ⟨⟨[]⟩, none⟩).2.current_document = none :=
  (c9_process_document_atomic (fun _ _ _ => ["x"]) false "a.pdf" ["page"]
    ⟨⟨[]⟩, none⟩).1 (by decide)

/-- C10: `extract_key_clauses` always returns a top-level success; each
of the six fixed topics is looked up with `top_k = 2` and only topics
whose lookup succeeded appear in the mapping, so when every topic fails
(for instance on an empty store) the result is a success carrying an
empty mapping. -/
theorem c10_extract_key_clauses_total (llm : String → String)
    (rawQuery : String → Nat → List Hit) (store : Collection) :
    (extract_key_clauses llm rawQuery store).success = true ∧
    (extract_key_clauses llm rawQuery store).clauses =
      key_topics.filterMap (fun t =>
        if (ask_question llm rawQuery store
            ("What does the document say about " ++ t ++ "?") 2).success
        then some (t, (ask_question llm rawQuery store
            ("What does the document say about " ++ t ++ "?") 2).answer)
        else none) ∧
    (store.count = 0 → (extract_key_clauses llm rawQuery store).clauses = []) := by
  have hfold := foldl_collect (fun t => ask_question llm rawQuery store
    ("What does the document say about " ++ t ++ "?") 2) key_topics []
  have hmain : (extract_key_clauses llm rawQuery store).clauses =
      key_topics.filterMap (fun t =>
        if (ask_question llm rawQuery store
            ("What does the document say about " ++ t ++ "?") 2).success
        then some (t, (ask_question llm rawQuery store
            ("What does the document say about " ++ t ++ "?") 2).answer)
        else none) := by
    simpa using hfold
  refine ⟨rfl, hmain, ?_⟩
  intro h0
  rw [hmain]
  have hask : ∀ (q : String) (k : Nat),
      (ask_question llm rawQuery store q k).success = false := by
    intro q k
    by_cases hq : pyIsBlank q = true
    · simp [ask_question, search, hq]
    · simp [ask_question, search, hq, h0]
  simp [hask]

/-- Witness for C10 on an empty store: overall success with an empty
clause mapping. -/
theorem c10_witness :
    (extract_key_clauses (fun _ => "a") (fun _ _ => []) ⟨[]⟩).success = true ∧
    (extract_key_clauses (fun _ => "a") (fun _ _ => []) ⟨[]⟩).clauses = [] :=
  ⟨(c10_extract_key_clauses_total (fun _ => "a") (fun _ _ => []) ⟨[]⟩).1,
   (c10_extract_key_clauses_total (fun _ => "a") (fun _ _ => []) ⟨[]⟩).2.2 rfl⟩

/-- C8: a successful extraction normalizes each page's text by
collapsing whitespace runs to single spaces and trimming (the
normalization is idempotent and token-preserving), returns the
space-joined concatenation of the normalized page texts in page order,
maps each 1-based page number to its normalized text, and reports
`total_words` as the whitespace-token count of the returned text. -/
theorem c8_extract_normalizes (path : String) (pages : List String)
    (hx : lowerEndsWithPdf path = true) :
    (extract_text_from_pdf true path pages).success = true ∧
    (extract_text_from_pdf true path pages).text =
      joinWith [' '] (pages.map clean) ∧
    (∀ (k : Nat) (pg : String), pages[k]? = some pg →
      (extract_text_from_pdf true path pages).page_texts[k]? =
        some (k + 1, clean pg)) ∧
    (extract_text_from_pdf true path pages).metadata.num_pages = pages.length ∧
    (extract_text_from_pdf true path pages).metadata.total_words =
      pyWordCount (extract_text_from_pdf true path pages).text ∧
    (extract_text_from_pdf true path pages).metadata.total_characters =
      (extract_text_from_pdf true path pages).text.length ∧
    (∀ s : String, clean (clean s) = clean s) ∧
    (∀ s : String, pyWordCount (clean s) = pyWordCount s) := by
  refine ⟨by simp [extract_text_from_pdf, hx], by simp [extract_text_from_pdf, hx],
    ?_, by simp [extract_text_from_pdf, hx], by simp [extract_text_from_pdf, hx],
    by simp [extract_text_from_pdf, hx], clean_idem, pyWordCount_clean⟩
  intro k pg hk
  have hp : (extract_text_from_pdf true path pages).page_texts =
      buildPageTexts 0 pages := by
    simp [extract_text_from_pdf, hx]
  rw [hp, buildPageTexts_getElem?, hk]
  simp

/-- Witness for C8 on a concrete two-page document. -/
theorem c8_witness :
    (extract_text_from_pdf true "doc.pdf" ["a", "b"]).page_texts[0]? =
      some (1, clean "a") :=
  (c8_extract_normalizes "doc.pdf" ["a", "b"] (by decide)).2.2.1 0 "a" rfl

end LegalRag
